import Mathlib

/-!
Verification of `src/briefcase/platforms/windows/msi.py`: a shallow
embedding of the Windows MSI packaging commands (support-package URL
resolution, the `._pth` path-configuration file, WiX toolchain
verification, and the heat/candle/light build pipeline), with theorems
checking the natural-language specification against the code.

Filesystem paths are modelled as lists of components (`List String`);
`path_str sep p` renders a path the way Python's `str(Path)` does, joining
components with the host separator `sep`.  External process execution is
modelled by an oracle `runOk : Invocation → Bool` saying whether a given
invocation exits with status zero; commands return the ordered trace of
invocations they spawned together with their outcome.
-/

namespace Briefcase

/-- An app descriptor as used by msi.py: name, formal display name,
version string and entry-point module name (attributes of `app`). -/
structure AppConfig where
  name : String
  formal_name : String
  version : String
  module_name : String
deriving DecidableEq, Repr

/-- Renders a path (list of components) as Python's `str(Path)` does,
joining components with the host directory separator. -/
def path_str (sep : String) (p : List String) : String :=
  String.intercalate sep p

/-! ## Support-package resolver (msi.py lines 65-86) -/

/-- msi.py line 76: `version = "%s.%s.%s" % sys.version_info[:3]`. -/
def formatted_version (major minor micro : Nat) : String :=
  toString major ++ "." ++ toString minor ++ "." ++ toString micro

/-- msi.py line 77: `arch = "amd64" if (struct.calcsize("P") * 8) == 64
else "win32"`, parameterized by the machine word size in bits. -/
def arch_tag (wordSize : Nat) : String :=
  if wordSize = 64 then "amd64" else "win32"

/-- msi.py lines 76-86: `support_package_url`, parameterized by the
interpreter version triple and the machine word size. -/
def support_package_url (major minor micro wordSize : Nat) : String :=
  let version := formatted_version major minor micro
  let arch := arch_tag wordSize
  if version = "3.7.2" then
    "https://www.python.org/ftp/python/" ++ version ++ "/python-" ++
      version ++ ".post1-embed-" ++ arch ++ ".zip"
  else
    "https://www.python.org/ftp/python/" ++ version ++ "/python-" ++
      version ++ "-embed-" ++ arch ++ ".zip"

/-! ## Runtime path configurator (msi.py lines 88-108) -/

/-- msi.py lines 98-100: `version_tag = "{major}{minor}"`. -/
def version_tag (major minor : Nat) : String :=
  toString major ++ toString minor

/-- msi.py lines 101-103: the name of the `._pth` file written into the
support directory. -/
def pth_file_name (major minor : Nat) : String :=
  "python" ++ version_tag major minor ++ "._pth"

/-- msi.py lines 105-108: the four lines written to the `._pth` file, in
order, one per `f.write` call (each call appends a newline, see
`pth_content`).  The Python literal on line 107 is `"..\\\\app\n"`, i.e.
two literal backslash characters between the components. -/
def pth_lines (major minor : Nat) : List String :=
  [ "python" ++ version_tag major minor ++ ".zip"
  , "."
  , "..\\\\app"
  , "..\\\\app_packages" ]

/-- msi.py lines 104-108: the full byte content of the `._pth` file: the
concatenation of the four newline-terminated writes. -/
def pth_content (major minor : Nat) : String :=
  String.join ((pth_lines major minor).map (fun line => line ++ "\n"))

/-- msi.py lines 101-108: writing the `._pth` file into the support
directory, modelled as an update of a directory (a map from file name to
file content).  Opening with mode `w` truncates, so the write overwrites
whatever was there. -/
def write_pth_file (dir : String → Option String) (major minor : Nat) :
    String → Option String :=
  fun name =>
    if name = pth_file_name major minor then some (pth_content major minor)
    else dir name

/-! ## Toolchain verification (msi.py lines 31-59) -/

/-- msi.py line 33: `Path(os.getenv('WIX', ''))`.  Python's
`pathlib.Path` normalizes the empty string to the current-directory path
`.`; the claims only ever supply separator-free root strings, which stay
a single component. -/
def path_of_string (s : String) : List String :=
  if s = "" then ["."] else [s]

/-- Python truthiness of a `pathlib.Path` object: `Path` defines neither
a bool conversion nor a length, so every `Path` object is truthy,
including `Path('.')` obtained from an absent or empty `WIX` variable. -/
def path_truthy (_p : List String) : Bool :=
  true

/-- The three WiX executable paths set as attributes by `verify_tools`
(msi.py lines 36-38). -/
structure WixTools where
  heat_exe : List String
  light_exe : List String
  candle_exe : List String
deriving DecidableEq, Repr

/-- msi.py lines 45-59: the literal error text raised when the WiX
toolset cannot be found, containing the remediation guidance. -/
def wix_help_text : String :=
  "\nWiX Toolset is not installed.\n\nPlease install the latest stable release from:\n\n    http://wixtoolset.org/\n\nIf WiX is already installed, set the WIX environment variable to the\ninstall path.\n\nIf you\x27re using Windows 10, you may need to enable the .NET 3.5 framework\nbefore installing WiX. Open the Control Panel, select \"Programs and Features\",\nthen \"Turn Windows features on or off\". Ensure \".NET Framework 3.5 (Includes\n.NET 2.0 and 3.0)\" is enabled.\n"

/-- msi.py lines 31-59: `verify_tools`.  `wixEnv` is the value of the
`WIX` environment variable (`none` when absent), `fileExists` is the
filesystem existence oracle for `Path.exists()`.  Returns the tool paths
that are assigned to the command object (assigned before the existence
check, hence set in every case) together with `some` error text when the
`BriefcaseCommandError` is raised and `none` on success. -/
def verify_tools (wixEnv : Option String) (fileExists : List String → Bool) :
    WixTools × Option String :=
  let wix_path := path_of_string (wixEnv.getD "")
  let tools : WixTools :=
    { heat_exe := wix_path ++ ["bin", "heat.exe"]
      light_exe := wix_path ++ ["bin", "light.exe"]
      candle_exe := wix_path ++ ["bin", "candle.exe"] }
  if path_truthy wix_path && fileExists tools.heat_exe &&
      fileExists tools.light_exe && fileExists tools.candle_exe then
    (tools, none)
  else
    (tools, some wix_help_text)

/-! ## Shared path accessors and the build/run pipelines
(msi.py lines 22-29, 118-193, 199-223) -/

/-- A single external-process invocation as issued through
`self.subprocess.run(args, check=True, cwd=...)`: the argument vector and
the working directory (`none` when no `cwd` argument is passed, as in
`run_app`). -/
structure Invocation where
  args : List String
  cwd : Option String
deriving DecidableEq, Repr

/-- Outcome of a briefcase command body: success, or the message of the
`BriefcaseCommandError` it raised. -/
inductive CommandResult where
  | ok : CommandResult
  | error : String → CommandResult
deriving DecidableEq, Repr

/-- The state a build/run command object carries: the platform output
directory `self.platform_path` and the three WiX executable paths set by
`verify_tools`. -/
structure CommandState where
  platform_path : List String
  heat_exe : List String
  light_exe : List String
  candle_exe : List String
deriving DecidableEq, Repr

/-- msi.py lines 22-23: `bundle_path(app) = platform_path / app.name`. -/
def bundle_path (st : CommandState) (app : AppConfig) : List String :=
  st.platform_path ++ [app.name]

/-- msi.py lines 25-26: `binary_path(app) = platform_path / app.name /
SourceDir / python / pythonw.exe`. -/
def binary_path (st : CommandState) (app : AppConfig) : List String :=
  st.platform_path ++ [app.name, "SourceDir", "python", "pythonw.exe"]

/-- msi.py lines 28-29: `distribution_path(app) = platform_path /
"{formal_name}-{version}.msi"`. -/
def distribution_path (st : CommandState) (app : AppConfig) : List String :=
  st.platform_path ++ [app.formal_name ++ "-" ++ app.version ++ ".msi"]

/-- msi.py lines 130-147: the harvest-stage (heat) invocation. -/
def heat_invocation (st : CommandState) (app : AppConfig) (sep : String) :
    Invocation :=
  { args := [ path_str sep st.heat_exe, "dir", "SourceDir", "-nologo", "-gg"
            , "-sfrag", "-sreg", "-srd", "-scom"
            , "-dr", "BRIEFCASE_CONTENT", "-cg", "BRIEFCASE_COMPONENTS"
            , "-out", app.name ++ "-manifest.wxs" ]
    cwd := some (path_str sep (bundle_path st app)) }

/-- msi.py lines 156-167: the compile-stage (candle) invocation. -/
def candle_invocation (st : CommandState) (app : AppConfig) (sep : String) :
    Invocation :=
  { args := [ path_str sep st.candle_exe, "-nologo"
            , "-ext", "WixUtilExtension", "-ext", "WixUIExtension"
            , app.name ++ ".wxs", app.name ++ "-manifest.wxs" ]
    cwd := some (path_str sep (bundle_path st app)) }

/-- msi.py lines 176-188: the link-stage (light) invocation. -/
def light_invocation (st : CommandState) (app : AppConfig) (sep : String) :
    Invocation :=
  { args := [ path_str sep st.light_exe, "-nologo"
            , "-ext", "WixUtilExtension", "-ext", "WixUIExtension"
            , "-o", path_str sep (distribution_path st app)
            , app.name ++ ".wixobj", app.name ++ "-manifest.wixobj" ]
    cwd := some (path_str sep (bundle_path st app)) }

/-- msi.py lines 118-193: `build_app`.  `runOk inv` tells whether the
external process `inv` exits with status zero (`subprocess.run` with
`check=True` raises `CalledProcessError` otherwise).  Returns the ordered
trace of invocations actually spawned together with the outcome. -/
def build_app (st : CommandState) (app : AppConfig) (sep : String)
    (runOk : Invocation → Bool) : List Invocation × CommandResult :=
  let h := heat_invocation st app sep
  if runOk h = false then
    ([h], .error ("Unable to generate manifest for app " ++ app.name ++ "."))
  else
    let c := candle_invocation st app sep
    if runOk c = false then
      ([h, c], .error ("Unable to compile app " ++ app.name ++ "."))
    else
      let l := light_invocation st app sep
      if runOk l = false then
        ([h, c, l], .error ("Unable to link app " ++ app.name ++ "."))
      else
        ([h, c, l], .ok)

/-- msi.py lines 199-223: `run_app` spawns the packaged binary with
`[str(binary_path(app)), "-m", app.module_name]` and no `cwd`. -/
def run_app (st : CommandState) (app : AppConfig) (sep : String)
    (runOk : Invocation → Bool) : List Invocation × CommandResult :=
  let inv : Invocation :=
    { args := [path_str sep (binary_path st app), "-m", app.module_name]
      cwd := none }
  if runOk inv = false then
    ([inv], .error ("Unable to start app " ++ app.name ++ "."))
  else
    ([inv], .ok)

/-! ## Test fixture (tests/platforms/windows/msi/test_build.py) -/

/-- The `first` app fixture: name `first`, formal name `First App`,
version `0.0.1`. -/
def first_app : AppConfig :=
  { name := "first", formal_name := "First App", version := "0.0.1"
    module_name := "first" }

/-- A concrete command state mirroring the test fixture: platform path
`C:\tmp\windows` and WiX executables under `C:\tmp\wix\bin`. -/
def fixture_state : CommandState :=
  { platform_path := ["C:", "tmp", "windows"]
    heat_exe := ["C:", "tmp", "wix", "bin", "heat.exe"]
    light_exe := ["C:", "tmp", "wix", "bin", "light.exe"]
    candle_exe := ["C:", "tmp", "wix", "bin", "candle.exe"] }

/-! ## Theorems -/

/-- C5: for every version triple whose formatted form is not `3.7.2` and
every word size, `support_package_url` is the standard URL template
populated with `major.minor.micro` and with architecture tag `amd64`
when the word size is 64 and `win32` for any other word size. -/
theorem support_package_url_standard (major minor micro wordSize : Nat)
    (h : formatted_version major minor micro ≠ "3.7.2") :
    support_package_url major minor micro wordSize =
      "https://www.python.org/ftp/python/" ++
        formatted_version major minor micro ++ "/python-" ++
        formatted_version major minor micro ++ "-embed-" ++
        (if wordSize = 64 then "amd64" else "win32") ++ ".zip" := by
  simp [support_package_url, arch_tag, h]

/-- Witness for C5 at the concrete triple 3.8.0 with word size 64. -/
theorem support_package_url_standard_witness :
    formatted_version 3 8 0 ≠ "3.7.2" ∧
      support_package_url 3 8 0 64 =
        "https://www.python.org/ftp/python/3.8.0/python-3.8.0-embed-amd64.zip" := by
  refine ⟨by decide, ?_⟩
  rw [support_package_url_standard 3 8 0 64 (by decide)]
  rfl

/-- C6: for the known-repackaged triple (formatted version `3.7.2`) and
either word size, `support_package_url` is the variant template with the
extra `.post1` release-suffix segment after the version. -/
theorem support_package_url_repackaged (major minor micro wordSize : Nat)
    (h : formatted_version major minor micro = "3.7.2") :
    support_package_url major minor micro wordSize =
      "https://www.python.org/ftp/python/3.7.2/python-3.7.2.post1-embed-" ++
        (if wordSize = 64 then "amd64" else "win32") ++ ".zip" := by
  simp [support_package_url, arch_tag, h]

/-- Witness for C6 at the concrete triple 3.7.2 with word size 32. -/
theorem support_package_url_repackaged_witness :
    formatted_version 3 7 2 = "3.7.2" ∧
      support_package_url 3 7 2 32 =
        "https://www.python.org/ftp/python/3.7.2/python-3.7.2.post1-embed-win32.zip" := by
  refine ⟨by decide, ?_⟩
  rw [support_package_url_repackaged 3 7 2 32 (by decide)]
  rfl

/-- C4 (counterexample): the third line the configurator writes for
version 3.8 is `..` followed by TWO backslash characters and `app` (the
Python literal is quadruple-backslash), not the single-separator form
the claim states (neither a single backslash nor a single slash). -/
theorem pth_third_line_not_single_separator :
    (pth_lines 3 8)[2]? = some "..\\\\app" ∧
      ("..\\\\app" : String) ≠ "..\\app" ∧
      ("..\\\\app" : String) ≠ "../app" := by
  decide

/-- C4 (amended): for every major/minor pair, the configurator writes
the file `python<major><minor>._pth` whose content is exactly four
newline-terminated lines, in order: the zipped standard-library name,
the current-directory marker, and the two parent-escaping entries, which
separate their components with a DOUBLED backslash. -/
theorem pth_content_exact (major minor : Nat) :
    pth_file_name major minor =
      "python" ++ toString major ++ toString minor ++ "._pth" ∧
    pth_lines major minor =
      [ "python" ++ toString major ++ toString minor ++ ".zip", "."
      , "..\\\\app", "..\\\\app_packages" ] ∧
    pth_content major minor =
      "python" ++ toString major ++ toString minor ++ ".zip" ++ "\n" ++
        "." ++ "\n" ++ "..\\\\app" ++ "\n" ++ "..\\\\app_packages" ++ "\n" := by
  refine ⟨rfl, rfl, ?_⟩
  apply String.ext
  simp [pth_content, pth_lines, version_tag]

/-- C7: writing the path-configuration file is idempotent: running the
write twice over any directory state yields the same directory state as
running it once (the file name and byte content depend only on the
version inputs, not on any app identity). -/
theorem write_pth_file_idempotent (dir : String → Option String)
    (major minor : Nat) :
    write_pth_file (write_pth_file dir major minor) major minor =
      write_pth_file dir major minor := by
  funext name
  by_cases h : name = pth_file_name major minor <;>
    simp [write_pth_file, h]

/-- C3 (counterexample): with the `WIX` environment variable absent and
every filesystem path existing (so the three derived tool paths
`./bin/heat.exe`, `./bin/light.exe`, `./bin/candle.exe` all exist),
`verify_tools` raises no error — contradicting the claim that an absent
installation-root variable makes `verify_tools` raise. -/
theorem verify_tools_absent_env_counterexample :
    (verify_tools none (fun _ => true)).2 = none := by
  decide

/-- C3 (amended): `verify_tools` raises the remediation-containing WiX
error if and only if at least one of the three derived tool paths
`<root>/bin/heat.exe`, `<root>/bin/light.exe`, `<root>/bin/candle.exe`
does not exist, where the root is the environment value, or the current
directory when the variable is absent or empty; it spawns no process,
and when all three tool files exist it returns successfully. -/
theorem verify_tools_error_characterization (wixEnv : Option String)
    (fileExists : List String → Bool) :
    (verify_tools wixEnv fileExists).2 =
      (if fileExists (path_of_string (wixEnv.getD "") ++ ["bin", "heat.exe"]) &&
          fileExists (path_of_string (wixEnv.getD "") ++ ["bin", "light.exe"]) &&
          fileExists (path_of_string (wixEnv.getD "") ++ ["bin", "candle.exe"])
        then none
        else some wix_help_text) := by
  unfold verify_tools
  simp only [path_truthy, Bool.true_and]
  split <;> rfl

/-- C10: the truthiness guard in `verify_tools` is vacuous — an absent
or empty `WIX` value yields the current-directory path, and every path
object is truthy — so `verify_tools` raises if and only if at least one
of the three derived tool files does not exist; moreover the three tool
path attributes are assigned (returned) regardless of whether
verification raises. -/
theorem verify_tools_guard_vacuous (wixEnv : Option String)
    (fileExists : List String → Bool) :
    path_of_string "" = ["."] ∧
    path_truthy (path_of_string (wixEnv.getD "")) = true ∧
    (verify_tools wixEnv fileExists).1 =
      { heat_exe := path_of_string (wixEnv.getD "") ++ ["bin", "heat.exe"]
        light_exe := path_of_string (wixEnv.getD "") ++ ["bin", "light.exe"]
        candle_exe :=
          path_of_string (wixEnv.getD "") ++ ["bin", "candle.exe"] } ∧
    ((verify_tools wixEnv fileExists).2.isSome = true ↔
      ¬(fileExists (path_of_string (wixEnv.getD "") ++ ["bin", "heat.exe"]) = true ∧
        fileExists (path_of_string (wixEnv.getD "") ++ ["bin", "light.exe"]) = true ∧
        fileExists (path_of_string (wixEnv.getD "") ++ ["bin", "candle.exe"]) = true)) := by
  refine ⟨rfl, rfl, ?_, ?_⟩
  · unfold verify_tools
    dsimp only
    split <;> rfl
  · unfold verify_tools
    simp only [path_truthy, Bool.true_and]
    split <;> rename_i h <;> simp_all

/-- C1: when every external process succeeds, `build_app` spawns exactly
three processes, in the order heat then candle then light, each with the
literal, order-fixed argument vector of the source and with working
directory equal to the app's bundle root; the harvest output argument is
`<name>-manifest.wxs` and the link output argument is the rendered
distribution path `<platform>/<formal name>-<version>.msi`. -/
theorem build_app_success_trace (st : CommandState) (app : AppConfig)
    (sep : String) (runOk : Invocation → Bool)
    (hok : ∀ inv, runOk inv = true) :
    build_app st app sep runOk =
      ( [ { args := [ path_str sep st.heat_exe, "dir", "SourceDir", "-nologo"
                    , "-gg", "-sfrag", "-sreg", "-srd", "-scom"
                    , "-dr", "BRIEFCASE_CONTENT", "-cg", "BRIEFCASE_COMPONENTS"
                    , "-out", app.name ++ "-manifest.wxs" ]
            cwd := some (path_str sep (st.platform_path ++ [app.name])) }
        , { args := [ path_str sep st.candle_exe, "-nologo"
                    , "-ext", "WixUtilExtension", "-ext", "WixUIExtension"
                    , app.name ++ ".wxs", app.name ++ "-manifest.wxs" ]
            cwd := some (path_str sep (st.platform_path ++ [app.name])) }
        , { args := [ path_str sep st.light_exe, "-nologo"
                    , "-ext", "WixUtilExtension", "-ext", "WixUIExtension"
                    , "-o", path_str sep (st.platform_path ++
                        [app.formal_name ++ "-" ++ app.version ++ ".msi"])
                    , app.name ++ ".wixobj", app.name ++ "-manifest.wixobj" ]
            cwd := some (path_str sep (st.platform_path ++ [app.name])) } ]
      , .ok ) := by
  simp [build_app, hok, heat_invocation, candle_invocation,
    light_invocation, bundle_path, distribution_path]

/-- Witness for C1 at the test fixture: app `first` / `First App` /
`0.0.1`, backslash separator — the harvest output is
`first-manifest.wxs` and the link output is
`C:\tmp\windows\First App-0.0.1.msi`. -/
theorem build_app_success_trace_witness :
    build_app fixture_state first_app "\\" (fun _ => true) =
      ( [ { args := [ "C:\\tmp\\wix\\bin\\heat.exe", "dir", "SourceDir"
                    , "-nologo", "-gg", "-sfrag", "-sreg", "-srd", "-scom"
                    , "-dr", "BRIEFCASE_CONTENT", "-cg", "BRIEFCASE_COMPONENTS"
                    , "-out", "first-manifest.wxs" ]
            cwd := some "C:\\tmp\\windows\\first" }
        , { args := [ "C:\\tmp\\wix\\bin\\candle.exe", "-nologo"
                    , "-ext", "WixUtilExtension", "-ext", "WixUIExtension"
                    , "first.wxs", "first-manifest.wxs" ]
            cwd := some "C:\\tmp\\windows\\first" }
        , { args := [ "C:\\tmp\\wix\\bin\\light.exe", "-nologo"
                    , "-ext", "WixUtilExtension", "-ext", "WixUIExtension"
                    , "-o", "C:\\tmp\\windows\\First App-0.0.1.msi"
                    , "first.wixobj", "first-manifest.wixobj" ]
            cwd := some "C:\\tmp\\windows\\first" } ]
      , .ok ) := by
  rw [build_app_success_trace fixture_state first_app "\\" (fun _ => true)
    (fun _ => rfl)]
  rfl

/-- C2: if the harvest-stage process fails, `build_app` spawns neither
the compile stage nor the link stage (the trace is the single heat
invocation) and raises the manifest-generation error naming the app;
symmetrically, if harvest succeeds and the compile stage fails, the link
stage is never spawned and the compile error naming the app is raised. -/
theorem build_app_stage_failure (st : CommandState) (app : AppConfig)
    (sep : String) (runOk : Invocation → Bool) :
    (runOk (heat_invocation st app sep) = false →
      build_app st app sep runOk =
        ( [heat_invocation st app sep]
        , .error ("Unable to generate manifest for app " ++
            app.name ++ ".") )) ∧
    (runOk (heat_invocation st app sep) = true →
      runOk (candle_invocation st app sep) = false →
      build_app st app sep runOk =
        ( [heat_invocation st app sep, candle_invocation st app sep]
        , .error ("Unable to compile app " ++ app.name ++ ".") )) := by
  constructor
  · intro hfail
    simp [build_app, hfail]
  · intro hok hfail
    simp [build_app, hok, hfail]

/-- Witness for C2 at the test fixture with an always-failing process:
only the heat invocation is spawned and the raised error is the
manifest-generation message naming `first`. -/
theorem build_app_stage_failure_witness :
    build_app fixture_state first_app "\\" (fun _ => false) =
      ( [heat_invocation fixture_state first_app "\\"]
      , .error "Unable to generate manifest for app first." ) := by
  have h := (build_app_stage_failure fixture_state first_app "\\"
    (fun _ => false)).1 rfl
  exact h.trans (by rfl)

/-- C8: for every app, the bundle root is the platform directory joined
with the app name, and the distribution path is the directory one level
above the bundle root (its parent, obtained by dropping the last
component) joined with `<formal name>-<version>.msi`. -/
theorem distribution_path_above_bundle (st : CommandState)
    (app : AppConfig) :
    bundle_path st app = st.platform_path ++ [app.name] ∧
    distribution_path st app =
      (bundle_path st app).dropLast ++
        [app.formal_name ++ "-" ++ app.version ++ ".msi"] := by
  refine ⟨rfl, ?_⟩
  simp [distribution_path, bundle_path]

/-- C9: `run_app` spawns exactly one process, whose argument vector is
the rendered embedded runtime executable
`<platform>/<name>/SourceDir/python/pythonw.exe` followed by `-m` and
the module name (and no working directory argument); it raises the error
naming the app exactly when that process exits non-zero. -/
theorem run_app_spec (st : CommandState) (app : AppConfig) (sep : String)
    (runOk : Invocation → Bool) :
    (run_app st app sep runOk).1 =
      [ { args := [ path_str sep (st.platform_path ++
            [app.name, "SourceDir", "python", "pythonw.exe"])
          , "-m", app.module_name ]
          cwd := none } ] ∧
    ((run_app st app sep runOk).2 =
        .error ("Unable to start app " ++ app.name ++ ".") ↔
      runOk { args := [ path_str sep (binary_path st app), "-m"
                      , app.module_name ]
              cwd := none } = false) := by
  constructor
  · simp only [run_app, binary_path]
    split <;> rfl
  · simp only [run_app]
    split <;> rename_i h <;> simp_all
